import Mathlib

/-!
# Verification of the platform-api request-lifecycle core

Shallow embedding of the Go service in
`Viren1993-web/k8s-platform-engineering-lab`:

* `app/middleware/middleware.go` — request-id, logging, panic-recovery and
  CORS middleware (`RequestID`, `Logging`, `Recovery`, `CORS`,
  `GetRequestID`);
* `app/main.go` — middleware chain composition and the graceful-shutdown
  sequence;
* the handlers package (`HealthHandler`, `APIHandler`, `formatBytes`),
  whose source is listed in the repository `README.md` and exercised by
  `app/handlers/handlers_test.go`;
* the config package (`config.Load`, `getEnv`, `getEnvInt`,
  `getEnvDuration`).

Modelling conventions:

* HTTP header maps are association lists `List (String × String)`;
  `Header.Get` returns `""` for a missing key and `Header.Set` replaces
  the entry, as in Go's `net/http`.
* The response writer is a record of headers, an optional committed status
  code and the body string.  Go's `WriteHeader` commits the first status
  and ignores later calls; `Write` commits an implicit 200 first.
* A handler panicking is modelled by an explicit result constructor
  carrying the partially written state and the panic payload; `recover`
  in a deferred function is the `match` on that constructor.
* `uuid.New().String()` is modelled by rendering a caller-supplied
  128-bit value in the canonical 8-4-4-4-12 hyphenated hex format (the
  version/variant bit stamping of uuid v4 does not affect any property
  proved here and is not modelled).
* Wall-clock time (timestamps, durations, uptime) is threaded as opaque
  parameters; no claim here depends on actual time values.
-/

namespace PlatformAPI

/-! ## Headers (net/http Header association-list model) -/

/-- Association-list model of an `http.Header`. -/
abbrev Headers := List (String × String)

/-- `Header.Get`: first value for the key, `""` when absent. -/
def getHeader (hs : Headers) (k : String) : String :=
  match hs with
  | [] => ""
  | p :: rest => if p.1 = k then p.2 else getHeader rest k

/-- `Header.Set`: replace any existing entries for the key. -/
def setHeader (hs : Headers) (k v : String) : Headers :=
  (hs.filter (fun p => p.1 ≠ k)) ++ [(k, v)]

/-- `Header.Del`: remove all entries for the key. -/
def delHeader (hs : Headers) (k : String) : Headers :=
  hs.filter (fun p => p.1 ≠ k)

/-! ## Requests, response writers, log records -/

/-- An inbound HTTP request.  `ctx` is the request context restricted to
the single private key (`requestIDKey`) this program stores in it:
`none` means the context carries no correlation id. -/
structure Request where
  method : String
  path : String
  headers : Headers
  remoteAddr : String
  userAgent : String
  ctx : Option String
  deriving Repr, DecidableEq

/-- The state of an `http.ResponseWriter`: headers, the committed status
code (`none` until `WriteHeader`/`Write` commits one), and the body. -/
structure RW where
  headers : Headers
  status : Option Nat
  body : String
  deriving Repr, DecidableEq

/-- A fresh response writer, as handed to the outermost middleware. -/
def emptyRW : RW := ⟨[], none, ""⟩

/-- `WriteHeader`: commits the first status code; later calls are
superfluous and ignored by `net/http`. -/
def RW.writeHeader (w : RW) (code : Nat) : RW :=
  if w.status.isSome then w else { w with status := some code }

/-- `Write`: commits an implicit 200 if no status was written yet, then
appends to the body. -/
def RW.write (w : RW) (s : String) : RW :=
  let w := if w.status.isSome then w else { w with status := some 200 }
  { w with body := w.body ++ s }

/-- zap log levels used by this program. -/
inductive LogLevel where
  | debug
  | info
  | warn
  | error
  deriving Repr, DecidableEq

/-- One structured log line: level, message, and the zap fields as
string pairs. -/
structure LogRecord where
  level : LogLevel
  msg : String
  fields : List (String × String)
  deriving Repr, DecidableEq

/-- Mutable world a request handler acts on: the response writer plus the
process-wide log sink. -/
structure World where
  rw : RW
  logs : List LogRecord
  deriving Repr, DecidableEq

/-- Fresh world: untouched writer, no log lines yet. -/
def emptyWorld : World := ⟨emptyRW, []⟩

/-- Outcome of running a handler: a normal return, or a panic that
escaped it, carrying the state written so far and the panic payload. -/
inductive HResult where
  | ok (s : World)
  | panicked (s : World) (payload : String)
  deriving Repr, DecidableEq

/-- Did the handler return without an escaping panic?  A `true` here is
what "the process was not terminated by the panic" means. -/
def HResult.isOk : HResult → Bool
  | .ok _ => true
  | .panicked _ _ => false

/-- The world state a result carries (written response and logs). -/
def HResult.world : HResult → World
  | .ok s => s
  | .panicked s _ => s

/-- An `http.Handler`. -/
abbrev Handler := Request → World → HResult

/-! ## uuid.String() rendering -/

/-- Lower-case hex digit. -/
def hexChar (n : Nat) : Char :=
  if n < 10 then Char.ofNat (48 + n) else Char.ofNat (87 + n)

/-- `n` rendered as exactly `w` lower-case hex digits (most significant
first). -/
def toHexPad (w n : Nat) : String :=
  String.mk (((List.range w).reverse).map (fun i => hexChar (n / 16 ^ i % 16)))

/-- `uuid.UUID.String()`: the 128-bit value `u` in canonical
8-4-4-4-12 hyphenated lower-case hex. -/
def uuidString (u : Nat) : String :=
  toHexPad 8 (u / 2 ^ 96 % 2 ^ 32) ++ "-" ++
  toHexPad 4 (u / 2 ^ 80 % 2 ^ 16) ++ "-" ++
  toHexPad 4 (u / 2 ^ 64 % 2 ^ 16) ++ "-" ++
  toHexPad 4 (u / 2 ^ 48 % 2 ^ 16) ++ "-" ++
  toHexPad 12 (u % 2 ^ 48)

/-! ## middleware.go -/

/-- The header name used for correlation ids. -/
def xRequestID : String := "X-Request-ID"

/-- `GetRequestID`: the context value under `requestIDKey` when it is a
string, else the literal `"unknown"`. -/
def GetRequestID (ctx : Option String) : String :=
  match ctx with
  | some id => id
  | none => "unknown"

/-- The id the `RequestID` middleware chooses for a request: the inbound
`X-Request-ID` header when non-empty, else `uuid.New().String()`
rendered from the drawn value `fresh`. -/
def requestIdOf (fresh : Nat) (r : Request) : String :=
  let id := getHeader r.headers xRequestID
  if id = "" then uuidString fresh else id

/-- `RequestID` middleware.  `fresh` is the 128-bit random value
`uuid.New()` would draw for this request: choose the id, store it in
the request context, and set it on the response header before
delegating. -/
def RequestID (fresh : Nat) (next : Handler) : Handler := fun r s =>
  let id := requestIdOf fresh r
  next { r with ctx := some id }
    { s with rw := { s.rw with headers := setHeader s.rw.headers xRequestID id } }

/-- The status the logging middleware's wrapping writer reports: the code
downstream committed, defaulting to 200 when downstream never called
`WriteHeader`. -/
def loggedStatus (w : RW) : Nat :=
  match w.status with
  | some c => c
  | none => 200

/-- The one info-level line `Logging` emits after the wrapped handler
returns.  Wall-clock duration is not modelled. -/
def loggingRecord (r : Request) (w : RW) : LogRecord :=
  { level := .info
    msg := "request completed"
    fields := [("request_id", GetRequestID r.ctx), ("method", r.method),
               ("path", r.path), ("status", toString (loggedStatus w)),
               ("remote_addr", r.remoteAddr), ("user_agent", r.userAgent)] }

/-- `Logging` middleware: delegate, then emit one info line.  It has no
deferred recovery, so a panic in `next` propagates and the line is not
emitted. -/
def Logging (next : Handler) : Handler := fun r s =>
  match next r s with
  | .ok s' => .ok { s' with logs := s'.logs ++ [loggingRecord r s'.rw] }
  | .panicked s' p => .panicked s' p

/-- The stack trace `debug.Stack()` captures: opaque to every property
proved here. -/
def stackTrace : String := "<stack>"

/-- The error body `Recovery` sends: the JSON object
`\x7b"error":"internal server error"\x7d`. -/
def internalErrorBody : String := "\x7b\"error\":\"internal server error\"\x7d"

/-- `http.Error`: set plain-text headers, write the status, then
`fmt.Fprintln` the message — which appends a newline to the body. -/
def httpError (w : RW) (msg : String) (code : Nat) : RW :=
  let hs := delHeader w.headers "Content-Length"
  let hs := setHeader hs "Content-Type" "text/plain; charset=utf-8"
  let hs := setHeader hs "X-Content-Type-Options" "nosniff"
  ({ w with headers := hs }).writeHeader code |>.write (msg ++ "\n")

/-- The error-level line `Recovery` emits when it catches a panic. -/
def recoveryRecord (r : Request) (payload : String) : LogRecord :=
  { level := .error
    msg := "panic recovered"
    fields := [("request_id", GetRequestID r.ctx), ("path", r.path),
               ("error", payload), ("stack", stackTrace)] }

/-- `Recovery` middleware: the deferred `recover()` turns an escaping
panic into one error log line plus `http.Error(w, …, 500)`; a normal
return passes through untouched. -/
def Recovery (next : Handler) : Handler := fun r s =>
  match next r s with
  | .ok s' => .ok s'
  | .panicked s' payload =>
      .ok { rw := httpError s'.rw internalErrorBody 500
            logs := s'.logs ++ [recoveryRecord r payload] }

/-- The three header writes the CORS middleware performs on every
request. -/
def corsHeaders (hs : Headers) : Headers :=
  let hs := setHeader hs "Access-Control-Allow-Origin" "*"
  let hs := setHeader hs "Access-Control-Allow-Methods" "GET, POST, OPTIONS"
  setHeader hs "Access-Control-Allow-Headers" "Content-Type, X-Request-ID"

/-- `CORS` middleware: always set the three CORS headers; answer a
pre-flight `OPTIONS` request with 204 directly, otherwise delegate. -/
def CORS (next : Handler) : Handler := fun r s =>
  let s := { s with rw := { s.rw with headers := corsHeaders s.rw.headers } }
  if r.method = "OPTIONS" then
    .ok { s with rw := s.rw.writeHeader 204 }
  else
    next r s

/-- The middleware chain exactly as `main.go` composes it:
`RequestID(Logging(Recovery(CORS(mux))))`. -/
def chain (fresh : Nat) (mux : Handler) : Handler :=
  RequestID fresh (Logging (Recovery (CORS mux)))

/-! ## config package (`config.Load`, `getEnv*`) -/

/-- The process environment: `os.LookupEnv`. -/
abbrev Env := String → Option String

/-- `time.Duration` in nanoseconds. -/
abbrev Duration := Int

/-- One `time.Second` in nanoseconds. -/
def second : Duration := 1000000000

/-- `Config` as declared in the config package. -/
structure Config where
  ServiceName : String
  Version : String
  Environment : String
  Port : Int
  ReadTimeout : Duration
  WriteTimeout : Duration
  IdleTimeout : Duration
  ShutdownTimeout : Duration
  LogLevel : String
  deriving Repr, DecidableEq

/-- Is `c` an ASCII decimal digit? -/
def isDigit (c : Char) : Bool := 48 ≤ c.toNat ∧ c.toNat ≤ 57

/-- Digit string to `Nat` (left fold, base 10). -/
def digitsToNat (cs : List Char) : Nat :=
  cs.foldl (fun acc c => acc * 10 + (c.toNat - 48)) 0

/-- `strconv.Atoi` on a 64-bit platform: optional sign, then one or more
decimal digits; any other shape, the empty string, or a value outside
the `int64` range is an error (`none`). -/
def atoi (s : String) : Option Int :=
  let cs := s.data
  let (neg, ds) :=
    match cs with
    | '-' :: rest => (true, rest)
    | '+' :: rest => (false, rest)
    | _ => (false, cs)
  if ds = [] ∨ ¬ ds.all isDigit then none
  else
    let v : Int := if neg then -(digitsToNat ds : Int) else (digitsToNat ds : Int)
    if v < -(2 ^ 63 : Int) ∨ (2 ^ 63 : Int) ≤ v then none else some v

/-- `getEnv`: the variable's value when set, else the default. -/
def getEnv (env : Env) (key defaultValue : String) : String :=
  match env key with
  | some value => value
  | none => defaultValue

/-- `getEnvInt`: the variable's value when set and `strconv.Atoi`
succeeds on it, else the default. -/
def getEnvInt (env : Env) (key : String) (defaultValue : Int) : Int :=
  match env key with
  | some value =>
      match atoi value with
      | some intVal => intVal
      | none => defaultValue
  | none => defaultValue

/-- `getEnvDuration`: the variable's value when set and
`time.ParseDuration` succeeds on it, else the default.  The stdlib
duration parser is an external collaborator and is passed in as
`parseDur` (`none` = parse error). -/
def getEnvDuration (parseDur : String → Option Duration) (env : Env)
    (key : String) (defaultValue : Duration) : Duration :=
  match env key with
  | some value =>
      match parseDur value with
      | some duration => duration
      | none => defaultValue
  | none => defaultValue

/-- `config.Load` with its documented production defaults. -/
def Load (parseDur : String → Option Duration) (env : Env) : Config :=
  { ServiceName := getEnv env "SERVICE_NAME" "platform-api"
    Version := getEnv env "SERVICE_VERSION" "1.0.0"
    Environment := getEnv env "ENVIRONMENT" "development"
    Port := getEnvInt env "PORT" 9090
    ReadTimeout := getEnvDuration parseDur env "READ_TIMEOUT" (5 * second)
    WriteTimeout := getEnvDuration parseDur env "WRITE_TIMEOUT" (10 * second)
    IdleTimeout := getEnvDuration parseDur env "IDLE_TIMEOUT" (120 * second)
    ShutdownTimeout := getEnvDuration parseDur env "SHUTDOWN_TIMEOUT" (30 * second)
    LogLevel := getEnv env "LOG_LEVEL" "info" }

/-! ## handlers package (source listed in README.md, exercised by
`handlers_test.go`) -/

/-- `HealthHandler`'s state: the atomic readiness flag and the start
time (opaque).  The logger and config fields play no role in any
property proved here. -/
structure HealthHandler where
  ready : Bool
  startTime : Nat
  deriving Repr, DecidableEq

/-- `NewHealthHandler`: constructs the handler and stores `true` in the
readiness flag. -/
def NewHealthHandler (startTime : Nat) : HealthHandler :=
  { ready := true, startTime := startTime }

/-- `SetNotReady`: stores `false` in the readiness flag (and logs; the
info line is irrelevant to the flag's trajectory). -/
def SetNotReady (h : HealthHandler) : HealthHandler :=
  { h with ready := false }

/-- The operations of `HealthHandler` that write its state.  Inspecting
the handlers source, `ready.Store` appears exactly twice: in
`NewHealthHandler` (storing `true`) and in `SetNotReady` (storing
`false`); `Liveness` and `Readiness` only `Load` the flag.  So after
construction the only mutator is `SetNotReady`. -/
inductive HealthOp where
  | setNotReady
  deriving Repr, DecidableEq

/-- Apply a sequence of post-construction mutating operations. -/
def applyHealthOps (ops : List HealthOp) (h : HealthHandler) : HealthHandler :=
  match ops with
  | [] => h
  | .setNotReady :: rest => applyHealthOps rest (SetNotReady h)

/-- `livenessResponse`. -/
structure LivenessResponse where
  status : String
  timestamp : String
  deriving Repr, DecidableEq

/-- `Liveness` (`/healthz`): the HTTP status and response body it
writes.  `h` is the receiver; the method reads none of its fields. -/
def Liveness (h : HealthHandler) (timestamp : String) :
    Nat × LivenessResponse :=
  (200, { status := "alive", timestamp := timestamp })

/-- One entry of `readinessResponse.Checks`. -/
structure Check where
  name : String
  status : String
  deriving Repr, DecidableEq

/-- `readinessResponse`. -/
structure ReadinessResponse where
  status : String
  uptime : String
  timestamp : String
  checks : List Check
  deriving Repr, DecidableEq

/-- `boolToStatus`. -/
def boolToStatus (b : Bool) : String :=
  if b then "pass" else "fail"

/-- `Readiness` (`/readyz`): load the flag once, then derive the HTTP
status and body from the loaded value. -/
def Readiness (h : HealthHandler) (uptime timestamp : String) :
    Nat × ReadinessResponse :=
  let isReady := h.ready
  let status := if isReady then "ready" else "not_ready"
  let httpStatus := if isReady then 200 else 503
  (httpStatus,
   { status := status, uptime := uptime, timestamp := timestamp
     checks := [{ name := "server", status := boolToStatus isReady }] })

/-- `APIHandler`'s state: configuration and start time; the logger plays
no role in any property proved here. -/
structure APIHandler where
  cfg : Config
  startTime : Nat
  deriving Repr, DecidableEq

/-- The per-process runtime constants `Info` reports
(`runtime.Version()`, `runtime.GOOS`, `runtime.GOARCH`). -/
structure RuntimeInfo where
  goVersion : String
  os : String
  arch : String
  deriving Repr, DecidableEq

/-- `infoResponse`. -/
structure InfoResponse where
  service : String
  version : String
  environment : String
  goVersion : String
  os : String
  arch : String
  deriving Repr, DecidableEq

/-- `Info` (`/api/v1/info`): HTTP 200 with metadata drawn only from the
configuration and the process runtime constants. -/
def Info (a : APIHandler) (rt : RuntimeInfo) : Nat × InfoResponse :=
  (200,
   { service := a.cfg.ServiceName
     version := a.cfg.Version
     environment := a.cfg.Environment
     goVersion := rt.goVersion
     os := rt.os
     arch := rt.arch })

/-- `formatBytes`: `b/1048576` rendered with exactly two decimal places.
The Go source divides in `float64` and renders with
`strconv.FormatFloat(_, 'f', 2, 64)`, which rounds the value to the
nearest hundredth, ties to even; this model computes that rounding in
exact arithmetic.  The two agree whenever the `float64` division is
exact — in particular at every multiple of 2^20 and at 0. -/
def formatBytes (b : Nat) : String :=
  let mb := 1048576
  let num := b * 100
  let q := num / mb
  let r := num % mb
  let hundredths :=
    if mb < 2 * r then q + 1
    else if 2 * r < mb then q
    else if q % 2 = 1 then q + 1 else q
  toString (hundredths / 100) ++ "." ++
    (if hundredths % 100 < 10 then "0" else "") ++ toString (hundredths % 100)

/-! ## main.go graceful shutdown -/

/-- The observable steps `main` performs after `sig := <-quit` returns,
in program order, plus the final process exit. -/
inductive MainEvent where
  | logReceivedSignal
  | setNotReady
  | logDraining
  | shutdownCall
  | logForcedShutdown
  | logStopped
  | exitProcess (code : Nat)
  deriving Repr, DecidableEq

/-- The shutdown block of `main.go` (lines 82–103) as a straight-line
trace: log the signal, mark not ready, log draining, call
`server.Shutdown` with the configured timeout; when the drain window
elapsed first (`drainCompleted = false`) the error is only logged; the
function then falls off the end of `main`, exiting with code 0.  The
block runs once: `main` receives from the signal channel a single time
and never loops back. -/
def shutdownEvents (drainCompleted : Bool) : List MainEvent :=
  [MainEvent.logReceivedSignal, MainEvent.setNotReady,
   MainEvent.logDraining, MainEvent.shutdownCall] ++
  (if drainCompleted then [] else [MainEvent.logForcedShutdown]) ++
  [MainEvent.logStopped, MainEvent.exitProcess 0]

/-- The shutdown block paired with its effect on the health handler's
state: the one mutation it performs is `SetNotReady`. -/
def shutdownSequence (h : HealthHandler) (drainCompleted : Bool) :
    HealthHandler × List MainEvent :=
  (SetNotReady h, shutdownEvents drainCompleted)

/-! ## Concrete fixtures used by witnesses and counterexamples -/

/-- A plain GET request with no inbound correlation id. -/
def sampleGet : Request :=
  { method := "GET", path := "/api/v1/info", headers := []
    remoteAddr := "127.0.0.1:9999", userAgent := "curl/8", ctx := none }

/-- The same request carrying an inbound `X-Request-ID: abc`. -/
def sampleWithId : Request :=
  { sampleGet with headers := [("X-Request-ID", "abc")] }

/-- A pre-flight request. -/
def sampleOptions : Request :=
  { sampleGet with method := "OPTIONS" }

/-- A routed handler that panics immediately with the given payload. -/
def panicMux (payload : String) : Handler := fun _ s => .panicked s payload

/-- A routed handler that does nothing. -/
def idMux : Handler := fun _ s => .ok s

/-- A routed handler whose execution is observable: it writes to the
body. -/
def touchMux : Handler := fun _ s => .ok { s with rw := s.rw.write "handler reached" }

/-- A routed handler that commits a 418 response and then panics:
exercises recovery after part of the response has been sent. -/
def committedPanicMux : Handler :=
  fun _ _ => .panicked
    { rw := { headers := [], status := some 418, body := "partial" }
      logs := [] } "boom"

/-- The configuration `handlers_test.go` builds in `testConfig`. -/
def testConfig : Config :=
  { ServiceName := "test-api", Version := "0.0.1", Environment := "test"
    Port := 0, ReadTimeout := 0, WriteTimeout := 0, IdleTimeout := 0
    ShutdownTimeout := 0, LogLevel := "" }

/-- Arbitrary runtime constants for a process. -/
def rt0 : RuntimeInfo := { goVersion := "go1.22", os := "linux", arch := "amd64" }

/-! ## Helper lemmas on the header model -/

theorem getHeader_setHeader (hs : Headers) (k v : String) :
    getHeader (setHeader hs k v) k = v := by
  induction hs with
  | nil => simp [getHeader, setHeader]
  | cons a t ih =>
      by_cases h : a.1 = k
      · simpa [setHeader, getHeader, h] using ih
      · simpa [setHeader, getHeader, h] using ih

theorem getHeader_setHeader_ne (hs : Headers) (k k' v : String)
    (h : k' ≠ k) :
    getHeader (setHeader hs k' v) k = getHeader hs k := by
  induction hs with
  | nil => simp [getHeader, setHeader, h]
  | cons a t ih =>
      by_cases ha : a.1 = k'
      · have hak : ¬ a.1 = k := fun hk => h (ha ▸ hk)
        simpa [setHeader, getHeader, List.filter, ha, hak, h] using ih
      · by_cases hak : a.1 = k
        · simp [setHeader, getHeader, List.filter, ha, hak, Ne.symm h]
        · simpa [setHeader, getHeader, List.filter, ha, hak] using ih

theorem getHeader_delHeader_ne (hs : Headers) (k k' : String)
    (h : k' ≠ k) :
    getHeader (delHeader hs k') k = getHeader hs k := by
  induction hs with
  | nil => simp [getHeader, delHeader]
  | cons a t ih =>
      by_cases ha : a.1 = k'
      · have hak : ¬ a.1 = k := fun hk => h (ha ▸ hk)
        simpa [delHeader, getHeader, List.filter, ha, hak, h] using ih
      · by_cases hak : a.1 = k
        · simp [delHeader, getHeader, List.filter, ha, hak, Ne.symm h]
        · simpa [delHeader, getHeader, List.filter, ha, hak] using ih

theorem toHexPad_length (w n : Nat) : (toHexPad w n).length = w := by
  simp [toHexPad, String.length]

theorem uuidString_length (u : Nat) : (uuidString u).length = 36 := by
  have hdash : ("-" : String).length = 1 := rfl
  simp [uuidString, String.length_append, toHexPad_length, hdash]

theorem uuidString_ne_empty (u : Nat) : uuidString u ≠ "" := by
  intro h
  have h36 := uuidString_length u
  rw [h] at h36
  simp at h36

theorem applyHealthOps_ready_false (ops : List HealthOp)
    (h : HealthHandler) (hready : h.ready = false) :
    (applyHealthOps ops h).ready = false := by
  induction ops generalizing h with
  | nil => simpa [applyHealthOps] using hready
  | cons op rest ih =>
      cases op
      simpa [applyHealthOps] using ih (SetNotReady h) rfl

/-! ## Helper lemmas on `httpError` and `corsHeaders` -/

theorem httpError_status_uncommitted (w : RW) (msg : String) (code : Nat)
    (h : w.status = none) : (httpError w msg code).status = some code := by
  simp [httpError, RW.writeHeader, RW.write, h]

theorem httpError_status_committed (w : RW) (msg : String) (code c : Nat)
    (h : w.status = some c) : (httpError w msg code).status = some c := by
  simp [httpError, RW.writeHeader, RW.write, h]

theorem httpError_body_uncommitted (w : RW) (msg : String) (code : Nat)
    (h : w.status = none) :
    (httpError w msg code).body = w.body ++ (msg ++ "\n") := by
  simp [httpError, RW.writeHeader, RW.write, h]

theorem httpError_headers (w : RW) (msg : String) (code : Nat) :
    (httpError w msg code).headers =
      setHeader (setHeader (delHeader w.headers "Content-Length")
        "Content-Type" "text/plain; charset=utf-8")
        "X-Content-Type-Options" "nosniff" := by
  by_cases hst : w.status.isSome <;>
    simp [httpError, RW.writeHeader, RW.write, hst]

theorem httpError_getHeader_other (w : RW) (msg : String) (code : Nat)
    (k : String) (h1 : k ≠ "Content-Length") (h2 : k ≠ "Content-Type")
    (h3 : k ≠ "X-Content-Type-Options") :
    getHeader (httpError w msg code).headers k = getHeader w.headers k := by
  rw [httpError_headers, getHeader_setHeader_ne _ _ _ _ (Ne.symm h3),
    getHeader_setHeader_ne _ _ _ _ (Ne.symm h2),
    getHeader_delHeader_ne _ _ _ (Ne.symm h1)]

theorem corsHeaders_getHeader_other (hs : Headers) (k : String)
    (h1 : k ≠ "Access-Control-Allow-Origin")
    (h2 : k ≠ "Access-Control-Allow-Methods")
    (h3 : k ≠ "Access-Control-Allow-Headers") :
    getHeader (corsHeaders hs) k = getHeader hs k := by
  simp only [corsHeaders]
  rw [getHeader_setHeader_ne _ _ _ _ (Ne.symm h3),
    getHeader_setHeader_ne _ _ _ _ (Ne.symm h2),
    getHeader_setHeader_ne _ _ _ _ (Ne.symm h1)]

theorem corsHeaders_origin (hs : Headers) :
    getHeader (corsHeaders hs) "Access-Control-Allow-Origin" = "*" := by
  simp only [corsHeaders]
  rw [getHeader_setHeader_ne _ _ _ _ (by decide),
    getHeader_setHeader_ne _ _ _ _ (by decide), getHeader_setHeader]

theorem corsHeaders_methods (hs : Headers) :
    getHeader (corsHeaders hs) "Access-Control-Allow-Methods"
      = "GET, POST, OPTIONS" := by
  simp only [corsHeaders]
  rw [getHeader_setHeader_ne _ _ _ _ (by decide), getHeader_setHeader]

theorem corsHeaders_allowed (hs : Headers) :
    getHeader (corsHeaders hs) "Access-Control-Allow-Headers"
      = "Content-Type, X-Request-ID" := by
  simp only [corsHeaders]
  rw [getHeader_setHeader]

/-! ## The claims -/

/-- C2: the readiness flag starts `true` at construction; while `true`,
`/readyz` answers 200 with status `"ready"`; after `SetNotReady` it
answers 503 with status `"not_ready"`; and no operation of the handler
ever stores `true` again, so once not-ready the flag stays not-ready for
any further sequence of mutating operations. -/
theorem readiness_transition_irreversible (t n : Nat) (u ts : String)
    (h : HealthHandler) (ops : List HealthOp) :
    (NewHealthHandler t).ready = true ∧
    Readiness { ready := true, startTime := n } u ts
      = (200, { status := "ready", uptime := u, timestamp := ts
                checks := [{ name := "server", status := "pass" }] }) ∧
    Readiness (SetNotReady h) u ts
      = (503, { status := "not_ready", uptime := u, timestamp := ts
                checks := [{ name := "server", status := "fail" }] }) ∧
    (applyHealthOps ops (SetNotReady h)).ready = false :=
  ⟨rfl, rfl, rfl, applyHealthOps_ready_false ops _ rfl⟩

/-- C3: the request-id middleware echoes a non-empty inbound
`X-Request-ID` into the response header and the request context, and
substitutes a freshly rendered, non-empty uuid when the header is
missing or empty. -/
theorem requestID_contract (fresh : Nat) (next : Handler) (r : Request)
    (s : World) :
    RequestID fresh next r s =
      next { r with ctx := some (requestIdOf fresh r) }
        { s with rw := { s.rw with
            headers := setHeader s.rw.headers xRequestID (requestIdOf fresh r) } } ∧
    getHeader (setHeader s.rw.headers xRequestID (requestIdOf fresh r)) xRequestID
      = requestIdOf fresh r ∧
    GetRequestID (some (requestIdOf fresh r)) = requestIdOf fresh r ∧
    (getHeader r.headers xRequestID ≠ "" →
      requestIdOf fresh r = getHeader r.headers xRequestID) ∧
    (getHeader r.headers xRequestID = "" →
      requestIdOf fresh r = uuidString fresh) ∧
    uuidString fresh ≠ "" := by
  refine ⟨rfl, getHeader_setHeader _ _ _, rfl, ?_, ?_, uuidString_ne_empty fresh⟩
  · intro hne
    simp [requestIdOf, hne]
  · intro he
    simp [requestIdOf, he]

/-- C3 witness: with inbound id `"abc"` the middleware chooses exactly
`"abc"`; without one it chooses the rendered uuid, which is
non-empty. -/
theorem requestID_contract_witness :
    requestIdOf 0 sampleWithId = "abc" ∧
    requestIdOf 0 sampleGet = uuidString 0 ∧
    uuidString 0 ≠ "" := by
  have h1 := (requestID_contract 0 idMux sampleWithId emptyWorld).2.2.2.1 (by decide)
  have h2 := (requestID_contract 0 idMux sampleGet emptyWorld).2.2.2.2.1 (by decide)
  have h3 := (requestID_contract 0 idMux sampleGet emptyWorld).2.2.2.2.2
  exact ⟨h1.trans (by decide), h2, h3⟩

/-- C4: after the shutdown signal, `main` marks the service not-ready
strictly before calling the bounded drain (`server.Shutdown`), exits
with code 0 whether or not the drain was forced, and the sequence
occurs exactly once in the trace. -/
theorem shutdown_sequence_contract (h : HealthHandler) (b : Bool) :
    (shutdownSequence h b).1.ready = false ∧
    (shutdownEvents b).indexOf MainEvent.setNotReady
      < (shutdownEvents b).indexOf MainEvent.shutdownCall ∧
    (shutdownEvents b).getLast? = some (MainEvent.exitProcess 0) ∧
    (shutdownEvents b).count MainEvent.setNotReady = 1 ∧
    (shutdownEvents b).count MainEvent.shutdownCall = 1 ∧
    (shutdownEvents b).count (MainEvent.exitProcess 0) = 1 := by
  cases b <;>
    exact ⟨rfl, by decide, by decide, by decide, by decide, by decide⟩

/-- C6: the liveness handler answers 200 with status `"alive"`, and its
output does not depend on the handler state at all — in particular not
on the readiness flag, which it never reads. -/
theorem liveness_always_alive (h h' : HealthHandler) (ts : String) :
    (Liveness h ts).1 = 200 ∧
    (Liveness h ts).2.status = "alive" ∧
    Liveness h ts = Liveness h' ts :=
  ⟨rfl, rfl, rfl⟩

/-- C7: a configuration value that fails to parse (integer for `PORT`,
duration for the four timeout settings) makes the loader fall back to
the documented default for that setting; `Load` is total, so startup
proceeds. -/
theorem config_malformed_uses_defaults
    (parseDur : String → Option Duration) (env : Env) :
    (∀ p, env "PORT" = some p → atoi p = none →
      (Load parseDur env).Port = 9090) ∧
    (∀ d, env "READ_TIMEOUT" = some d → parseDur d = none →
      (Load parseDur env).ReadTimeout = 5 * second) ∧
    (∀ d, env "WRITE_TIMEOUT" = some d → parseDur d = none →
      (Load parseDur env).WriteTimeout = 10 * second) ∧
    (∀ d, env "IDLE_TIMEOUT" = some d → parseDur d = none →
      (Load parseDur env).IdleTimeout = 120 * second) ∧
    (∀ d, env "SHUTDOWN_TIMEOUT" = some d → parseDur d = none →
      (Load parseDur env).ShutdownTimeout = 30 * second) := by
  refine ⟨?_, ?_, ?_, ?_, ?_⟩ <;>
    · intro v h1 h2
      simp [Load, getEnvInt, getEnvDuration, h1, h2]

/-- C7 witness: an environment supplying the unparsable value
`"garbage"` for every key still loads with `PORT = 9090` and
`SHUTDOWN_TIMEOUT = 30s`. -/
theorem config_malformed_uses_defaults_witness :
    (Load (fun _ => none) (fun _ => some "garbage")).Port = 9090 ∧
    (Load (fun _ => none) (fun _ => some "garbage")).ShutdownTimeout
      = 30 * second :=
  ⟨(config_malformed_uses_defaults (fun _ => none)
      (fun _ => some "garbage")).1 "garbage" rfl (by decide),
   (config_malformed_uses_defaults (fun _ => none)
      (fun _ => some "garbage")).2.2.2.2 "garbage" rfl rfl⟩

/-- C8: the Info handler's service, version and environment fields are a
function of the configuration alone (two calls under the same
configuration agree), the handler always answers 200, and under
`ServiceName = "test-api"`, `Version = "0.0.1"` it reports exactly those
strings. -/
theorem info_idempotent_metadata (a1 a2 : APIHandler) (rt : RuntimeInfo)
    (hcfg : a1.cfg = a2.cfg) :
    (Info a1 rt).2.service = (Info a2 rt).2.service ∧
    (Info a1 rt).2.version = (Info a2 rt).2.version ∧
    (Info a1 rt).2.environment = (Info a2 rt).2.environment ∧
    (Info a1 rt).1 = 200 ∧
    (a1.cfg.ServiceName = "test-api" → (Info a1 rt).2.service = "test-api") ∧
    (a1.cfg.Version = "0.0.1" → (Info a1 rt).2.version = "0.0.1") := by
  refine ⟨?_, ?_, ?_, rfl, fun hx => hx, fun hx => hx⟩ <;>
    simp [Info, hcfg]

/-- C8 witness: the concrete scenario from `handlers_test.go`:
`testConfig` yields 200 with `service = "test-api"`,
`version = "0.0.1"`. -/
theorem info_idempotent_metadata_witness :
    (Info ⟨testConfig, 0⟩ rt0).2.service = "test-api" ∧
    (Info ⟨testConfig, 0⟩ rt0).2.version = "0.0.1" ∧
    (Info ⟨testConfig, 0⟩ rt0).1 = 200 :=
  ⟨(info_idempotent_metadata ⟨testConfig, 0⟩ ⟨testConfig, 0⟩ rt0 rfl).2.2.2.2.1 rfl,
   (info_idempotent_metadata ⟨testConfig, 0⟩ ⟨testConfig, 0⟩ rt0 rfl).2.2.2.2.2 rfl,
   (info_idempotent_metadata ⟨testConfig, 0⟩ ⟨testConfig, 0⟩ rt0 rfl).2.2.2.1⟩

/-- C9: memory-size formatting divides by 1048576 and renders two
decimal places: 1048576 bytes is `"1.00"` and 0 bytes is `"0.00"`. -/
theorem formatBytes_boundary :
    formatBytes 1048576 = "1.00" ∧ formatBytes 0 = "0.00" :=
  ⟨by decide, by decide⟩

/-- C10: for a request context carrying no correlation id,
`GetRequestID` returns the literal `"unknown"` — a non-empty string,
not an error — so both the logging middleware's line and the recovery
middleware's line carry `request_id = "unknown"` on such requests. -/
theorem getRequestID_missing_context (m p ra ua : String) (hs : Headers)
    (w : RW) (payload : String) :
    GetRequestID none = "unknown" ∧
    GetRequestID none ≠ "" ∧
    getHeader (loggingRecord ⟨m, p, hs, ra, ua, none⟩ w).fields "request_id"
      = "unknown" ∧
    getHeader (recoveryRecord ⟨m, p, hs, ra, ua, none⟩ payload).fields "request_id"
      = "unknown" := by
  refine ⟨rfl, by decide, ?_, ?_⟩ <;>
    simp [loggingRecord, recoveryRecord, getHeader, GetRequestID]

/-- C5: the CORS middleware sets the three CORS headers on every
request; it answers `OPTIONS` with 204, leaves the body untouched, and
never invokes the wrapped handler (the result is independent of it);
any other method is forwarded unchanged with the headers set. -/
theorem cors_preflight_contract (next : Handler) (r : Request) (s : World) :
    getHeader (corsHeaders s.rw.headers) "Access-Control-Allow-Origin" = "*" ∧
    getHeader (corsHeaders s.rw.headers) "Access-Control-Allow-Methods"
      = "GET, POST, OPTIONS" ∧
    getHeader (corsHeaders s.rw.headers) "Access-Control-Allow-Headers"
      = "Content-Type, X-Request-ID" ∧
    (r.method = "OPTIONS" →
      (∀ next' : Handler, CORS next' r s = CORS next r s) ∧
      CORS next r s = HResult.ok { s with rw :=
        { headers := corsHeaders s.rw.headers
          status := if s.rw.status.isSome then s.rw.status else some 204
          body := s.rw.body } }) ∧
    (r.method ≠ "OPTIONS" →
      CORS next r s =
        next r { s with rw := { s.rw with headers := corsHeaders s.rw.headers } }) := by
  refine ⟨corsHeaders_origin _, corsHeaders_methods _, corsHeaders_allowed _, ?_, ?_⟩
  · intro hopt
    constructor
    · intro next'
      simp [CORS, hopt]
    · cases hst : s.rw.status <;>
        simp [CORS, hopt, RW.writeHeader, hst]
  · intro hne
    simp [CORS, hne]

/-- C5 witness: a pre-flight request on a fresh writer yields 204, an
empty body, the three headers, and the same result whether the wrapped
handler is the observable one or the inert one. -/
theorem cors_preflight_contract_witness :
    CORS idMux sampleOptions emptyWorld = CORS touchMux sampleOptions emptyWorld ∧
    CORS touchMux sampleOptions emptyWorld
      = HResult.ok { rw := { headers := corsHeaders [], status := some 204, body := "" }
                     logs := [] } := by
  have h := (cors_preflight_contract touchMux sampleOptions emptyWorld).2.2.2.1
    (by decide)
  refine ⟨h.1 idMux, h.2.trans ?_⟩
  rfl

/-- C1 counterexample: at a concrete panicking request the response body
is not exactly the JSON object the claim states — `http.Error` writes
the message with `Fprintln`, so the body carries a trailing newline. -/
theorem recovery_exact_body_cex :
    (chain 0 (panicMux "boom") sampleGet emptyWorld).world.rw.body
      ≠ "\x7b\"error\":\"internal server error\"\x7d" := by decide

/-- C1 (amended): for every non-preflight request whose downstream
handler panics, the composed chain returns normally (the process
survives), the caller gets status 500 with body the JSON error object
followed by a newline, exactly one error-level log line is emitted and
it carries the same correlation id as the response `X-Request-ID`
header; and when part of the response was already committed, the
already-committed status is left in place (the 500 status applies only
to an uncommitted response). -/
theorem recovery_chain_amended (fresh : Nat) (payload : String) (r : Request)
    (hm : r.method ≠ "OPTIONS") :
    (chain fresh (panicMux payload) r emptyWorld).isOk = true ∧
    (chain fresh (panicMux payload) r emptyWorld).world.rw.status = some 500 ∧
    (chain fresh (panicMux payload) r emptyWorld).world.rw.body
      = internalErrorBody ++ "\n" ∧
    ((chain fresh (panicMux payload) r emptyWorld).world.logs.filter
        (fun lr => lr.level = LogLevel.error)).map
        (fun lr => getHeader lr.fields "request_id")
      = [getHeader (chain fresh (panicMux payload) r emptyWorld).world.rw.headers
          xRequestID] ∧
    getHeader (chain fresh (panicMux payload) r emptyWorld).world.rw.headers
        xRequestID = requestIdOf fresh r ∧
    (∀ (next : Handler) (s s' : World) (c : Nat) (p : String),
      next r s = HResult.panicked s' p → s'.rw.status = some c →
      (Recovery next r s).world.rw.status = some c) := by
  have hcors : CORS (panicMux payload)
      { r with ctx := some (requestIdOf fresh r) }
      { rw := { headers := setHeader [] xRequestID (requestIdOf fresh r)
                status := none, body := "" }
        logs := [] }
      = HResult.panicked
          { rw := { headers := corsHeaders (setHeader [] xRequestID (requestIdOf fresh r))
                    status := none, body := "" }
            logs := [] }
          payload := by
    simp [CORS, panicMux, hm]
  have hchain : chain fresh (panicMux payload) r emptyWorld =
      HResult.ok
        { rw := httpError
            { headers := corsHeaders (setHeader [] xRequestID (requestIdOf fresh r))
              status := none, body := "" } internalErrorBody 500
          logs := [recoveryRecord { r with ctx := some (requestIdOf fresh r) } payload,
                   loggingRecord { r with ctx := some (requestIdOf fresh r) }
                     (httpError
                       { headers := corsHeaders (setHeader [] xRequestID (requestIdOf fresh r))
                         status := none, body := "" } internalErrorBody 500)] } := by
    simp [chain, RequestID, Logging, Recovery, hcors, emptyWorld, emptyRW]
  have hhdr : getHeader (httpError
      { headers := corsHeaders (setHeader [] xRequestID (requestIdOf fresh r))
        status := none, body := "" } internalErrorBody 500).headers xRequestID
      = requestIdOf fresh r := by
    rw [httpError_getHeader_other _ _ _ _ (by decide) (by decide) (by decide),
      corsHeaders_getHeader_other _ _ (by decide) (by decide) (by decide)]
    exact getHeader_setHeader _ _ _
  refine ⟨?_, ?_, ?_, ?_, ?_, ?_⟩
  · rw [hchain]
    rfl
  · rw [hchain]
    exact httpError_status_uncommitted _ _ _ rfl
  · rw [hchain]
    show (httpError _ internalErrorBody 500).body = _
    rw [httpError_body_uncommitted _ _ _ rfl]
    rfl
  · rw [hchain]
    simp only [HResult.world]
    rw [hhdr]
    simp [recoveryRecord, loggingRecord, List.filter, getHeader, GetRequestID]
  · rw [hchain]
    exact hhdr
  · intro next s s' c p hnext hstat
    simp only [Recovery, hnext, HResult.world]
    exact httpError_status_committed _ _ _ _ hstat

/-- C1 witness: the amended claim at a concrete request (GET, no
inbound id, payload `"boom"`), plus the committed-response case at a
handler that sent a 418 before panicking. -/
theorem recovery_chain_amended_witness :
    (chain 0 (panicMux "boom") sampleGet emptyWorld).isOk = true ∧
    (chain 0 (panicMux "boom") sampleGet emptyWorld).world.rw.status = some 500 ∧
    (chain 0 (panicMux "boom") sampleGet emptyWorld).world.rw.body
      = internalErrorBody ++ "\n" ∧
    (Recovery committedPanicMux sampleGet emptyWorld).world.rw.status
      = some 418 := by
  have h := recovery_chain_amended 0 "boom" sampleGet (by decide)
  exact ⟨h.1, h.2.1, h.2.2.1,
    h.2.2.2.2.2 committedPanicMux emptyWorld
      { rw := { headers := [], status := some 418, body := "partial" }, logs := [] }
      418 "boom" rfl rfl⟩

end PlatformAPI
